import Mathlib

set_option autoImplicit false

namespace Doggonet

/-! Shallow embedding of `doggonet`, a tool that compiles Jsonnet templates
into Datadog dashboard JSON and pushes them through the Datadog REST API.
Each definition below is translated from the corresponding Python source
file (`src/doggonet/utils/jsonnet.py`, `src/doggonet/cli/main.py`,
`scripts/validate_examples.py`); client operations whose implementation
file (`client/dashboard.py`) is absent from the tree are modelled from the
specification and say so in their doc comments. -/

/-- JSON-like Python values flowing through the tool. Floats are not needed
by any claim and are omitted. A dict is an association list with the usual
first-match lookup. -/
inductive Value where
  | vNull
  | vBool (b : Bool)
  | vInt (n : Int)
  | vStr (s : String)
  | vList (xs : List Value)
  | vDict (kvs : List (String × Value))

/-- A Python dict with string keys, as used for dashboards. -/
abbrev PyDict := List (String × Value)

/-- Embeds `d.get(key)` / `key in d` lookup on a Python dict. -/
def pyGet : PyDict → String → Option Value
  | [], _ => none
  | (k, v) :: rest, key => if k = key then some v else pyGet rest key

/-- Python truthiness of a value (`bool(v)`). -/
def pyTruthy : Value → Bool
  | .vNull => false
  | .vBool b => b
  | .vInt n => n != 0
  | .vStr s => s != ""
  | .vList xs => !xs.isEmpty
  | .vDict kvs => !kvs.isEmpty

/-- Python `v == s` for a string literal `s` (values of other types never
equal a string). -/
def pyEqStr (v : Value) (s : String) : Bool :=
  match v with
  | .vStr t => t = s
  | _ => false

/-- Python `isinstance(v, list)`. -/
def isList : Value → Bool
  | .vList _ => true
  | _ => false

/-- Python type name of a value, as it appears in a `TypeError` message. -/
def pyTypeName : Value → String
  | .vNull => "NoneType"
  | .vBool _ => "bool"
  | .vInt _ => "int"
  | .vStr _ => "str"
  | .vList _ => "list"
  | .vDict _ => "dict"

/-- Python iteration: `some` of the yielded elements for an iterable value
(a list yields its elements, a string its characters, a dict its keys);
`none` when iteration raises `TypeError` (None, bool, int). -/
def pyIter : Value → Option (List Value)
  | .vList xs => some xs
  | .vStr s => some (s.data.map (fun c => Value.vStr (String.singleton c)))
  | .vDict kvs => some (kvs.map (fun kv => Value.vStr kv.1))
  | .vNull => none
  | .vBool _ => none
  | .vInt _ => none

/-- Embeds the widget loop of `validate_dashboard_json`
(`scripts/validate_examples.py` lines 45-51): a non-dict element reports
`Widget i is not a dictionary` and skips the definition check (`continue`);
a dict element missing `definition` reports that. -/
def widget_errors (filename : String) : List Value → Nat → List String
  | [], _ => []
  | w :: rest, i =>
    (match w with
     | Value.vDict kvs =>
        if (pyGet kvs "definition").isNone then
          [filename ++ ": Widget " ++ toString i ++ " missing \x27definition\x27"]
        else []
     | _ => [filename ++ ": Widget " ++ toString i ++ " is not a dictionary"])
    ++ widget_errors filename rest (i + 1)

/-- Embeds `validate_dashboard_json(dashboard, filename)` from
`scripts/validate_examples.py` lines 21-53, including the fact that the
widget loop at line 45 enumerates the `widgets` value unconditionally,
which raises `TypeError`
(modelled as `Except.error`) when that value is not iterable. Error strings
and their accumulation order follow the source exactly. -/
def validate_dashboard_json (dashboard : PyDict) (filename : String) :
    Except String (List String) :=
  let e1 : List String :=
    if (pyGet dashboard "title").isNone then
      [filename ++ ": Missing required field \x27title\x27"] else []
  let e2 : List String :=
    if (pyGet dashboard "widgets").isNone then
      [filename ++ ": Missing required field \x27widgets\x27"] else []
  let e3 : List String :=
    if (pyGet dashboard "layout_type").isNone then
      [filename ++ ": Missing required field \x27layout_type\x27"] else []
  let e4 : List String :=
    match pyGet dashboard "widgets" with
    | some w => if isList w then [] else [filename ++ ": \x27widgets\x27 must be a list"]
    | none => []
  let e5 : List String :=
    match pyGet dashboard "layout_type" with
    | some lt =>
        if pyEqStr lt "ordered" || pyEqStr lt "grid" then []
        else [filename ++ ": \x27layout_type\x27 must be \x27ordered\x27 or \x27grid\x27"]
    | none => []
  let errors := e1 ++ e2 ++ e3 ++ e4 ++ e5
  match pyGet dashboard "widgets" with
  | some w =>
      match pyIter w with
      | some elems => Except.ok (errors ++ widget_errors filename elems 0)
      | none =>
          Except.error ("TypeError: \x27" ++ pyTypeName w ++ "\x27 object is not iterable")
  | none => Except.ok errors

/-- Outcome of the push decision in the CLI `push` command: either a PUT of
the document to the dashboard with the given id, or a POST creating a new
dashboard from the document. -/
inductive PushAction where
  | update (id : Value) (doc : PyDict)
  | create (doc : PyDict)

/-- True exactly for the update outcome. -/
def actionIsUpdate : PushAction → Bool
  | .update _ _ => true
  | .create _ => false

/-- Embeds the create-vs-update decision of the CLI `push` command
(`src/doggonet/cli/main.py` lines 44 and 56-64):
`dashboard_id = dashboard_json.get("id")` followed by
`if dashboard_id and client.dashboard_exists(dashboard_id)` — note the
Python truthiness test on `dashboard_id`, with short-circuit so the
existence check runs only for a truthy id. The remote existence check is an
oracle argument. -/
def push_decision (dashboard_json : PyDict) (dashboard_exists : Value → Bool) :
    PushAction :=
  match pyGet dashboard_json "id" with
  | some did =>
      if pyTruthy did && dashboard_exists did then PushAction.update did dashboard_json
      else PushAction.create dashboard_json
  | none => PushAction.create dashboard_json

/-- Splits a path string at every slash, mirroring how `pathlib` splits a
POSIX path into components (empty components arise from doubled slashes). -/
def splitSlashAux : List Char → List Char → List String
  | [], acc => [String.mk acc.reverse]
  | c :: rest, acc =>
      if c = '/' then String.mk acc.reverse :: splitSlashAux rest []
      else splitSlashAux rest (c :: acc)

/-- Raw slash-separated components of a path string. -/
def pathComponents (p : String) : List String :=
  splitSlashAux p.data []

/-- Embeds `pathlib.PurePath.name`: the final component of the path after
`pathlib` collapses spurious slashes and single-dot components. -/
def pathName (p : String) : String :=
  ((pathComponents p).filter (fun c => !(c == "") && !(c == "."))).getLastD ""

/-- Index of the last dot in a character list (`str.rfind`), `none` when no
dot occurs. -/
def lastDotIndex : List Char → Option Nat
  | [] => none
  | c :: rest =>
      match lastDotIndex rest with
      | some i => some (i + 1)
      | none => if c = '.' then some 0 else none

/-- Embeds `pathlib.PurePath.suffix`: the extension of the final component,
i.e. the part of the name from its last dot, and `""` when the name has no
dot, starts with its only dot (dot-files such as `.bashrc`), or ends in a
dot. -/
def pathSuffix (p : String) : String :=
  let name := pathName p
  let cs := name.data
  match lastDotIndex cs with
  | some i => if 0 < i ∧ i < cs.length - 1 then String.mk (cs.drop i) else ""
  | none => ""

/-- Embeds `is_jsonnet_file` (`src/doggonet/utils/jsonnet.py` lines 88-90):
`file_path.suffix in [".jsonnet", ".libsonnet"]`. -/
def is_jsonnet_file (file_path : String) : Bool :=
  [".jsonnet", ".libsonnet"].contains (pathSuffix file_path)

/-- Heap of mutable Python objects relevant to `compile_jsonnet`: the
caller may hand in a `list[Path]` (`jpathdir`) and a `dict[str, str]`
(`ext_vars`); a reference is an index into the respective store. Paths are
represented by their strings. -/
structure PyState where
  lists : List (List String)
  dicts : List (List (String × String))

/-- Allocates a fresh Python list object. -/
def allocList (st : PyState) (xs : List String) : Nat × PyState :=
  (st.lists.length, { st with lists := st.lists ++ [xs] })

/-- Allocates a fresh Python dict object. -/
def allocDict (st : PyState) (kvs : List (String × String)) : Nat × PyState :=
  (st.dicts.length, { st with dicts := st.dicts ++ [kvs] })

/-- Dereferences a list object. -/
def readList (st : PyState) (r : Nat) : List String :=
  st.lists.getD r []

/-- Dereferences a dict object. -/
def readDict (st : PyState) (r : Nat) : List (String × String) :=
  st.dicts.getD r []

/-- In-place `list.append` on a heap object. This is the operation a
mutating implementation would use; `compile_jsonnet` never invokes it. -/
def heapListAppend (st : PyState) (r : Nat) (x : String) : PyState :=
  { st with lists := st.lists.set r (readList st r ++ [x]) }

/-- Environment `compile_jsonnet` runs in: whether `import doggonet`
resolves and where the package's parent directory is, whether the
in-process `_jsonnet` evaluator imports, whether the external `jsonnet`
executable exists, and the behaviour of `json.loads`. -/
structure JsonnetWorld where
  doggonetParent : Option String
  parentExists : Bool
  pyJsonnet : Option (String → List (String × String) → List String → Except String String)
  cliJsonnet : Option (List String → Except String String)
  jsonLoads : String → Except String Value

/-- Exceptions that can escape `compile_jsonnet`: the `RuntimeError`s it
raises itself, and the `json.JSONDecodeError` / `_jsonnet` evaluation
errors that propagate uncaught out of the `_jsonnet` branch (the
`except ImportError` there catches neither). -/
inductive PyErr where
  | runtimeError (msg : String)
  | jsonDecodeError (msg : String)
  | evalError (msg : String)

/-- Message of the `RuntimeError` raised when neither evaluator is
available (`src/doggonet/utils/jsonnet.py` lines 77-81). -/
def notFoundMsg : String :=
  "Jsonnet compiler not found. Install with: pip install jsonnet\nOr install the jsonnet CLI from: https://github.com/google/go-jsonnet"

/-- Embeds line 28, `jpathdir = jpathdir or []`: keep the caller's list
object if it is truthy (non-empty), otherwise bind the local name to a
fresh empty list. -/
def resolve_jpath0 (st : PyState) (jpathdir : Option Nat) : Nat × PyState :=
  match jpathdir with
  | some r => if (readList st r).isEmpty then allocList st [] else (r, st)
  | none => allocList st []

/-- Embeds lines 33-40: when `import doggonet` succeeds, its parent
directory exists and is not already in the list, rebind the local name to
the NEW list `[parent_dir] + jpathdir`; the referenced list itself is
never modified. -/
def add_library_path (w : JsonnetWorld) (st : PyState) (jpRef : Nat) : Nat × PyState :=
  match w.doggonetParent with
  | some parent =>
      if w.parentExists && !((readList st jpRef).contains parent) then
        allocList st (parent :: readList st jpRef)
      else (jpRef, st)
  | none => (jpRef, st)

/-- Embeds line 46, `ext_vars = ext_vars or \x7b\x7d` (executed only in
the `_jsonnet` branch). -/
def resolve_extvars (st : PyState) (ext_vars : Option Nat) : Nat × PyState :=
  match ext_vars with
  | some r => if (readDict st r).isEmpty then allocDict st [] else (r, st)
  | none => allocDict st []

/-- Embeds the `jsonnet` CLI command line built at lines 62-72:
`["jsonnet", source] ++ ["--ext-str", "k=v"] pairs ++ ["-J", path] flags`.
Note the `ext_vars` used here is the caller's original argument, since the
rebinding at line 46 happens only after `import _jsonnet` succeeds. -/
def cli_command (st : PyState) (source_file : String) (ext_vars : Option Nat)
    (jpRef : Nat) : List String :=
  let cmd := ["jsonnet", source_file]
  let cmd := cmd ++ (match ext_vars with
    | some r =>
        (readDict st r).foldl (fun acc kv => acc ++ ["--ext-str", kv.1 ++ "=" ++ kv.2]) []
    | none => [])
  cmd ++ (readList st jpRef).foldl (fun acc p => acc ++ ["-J", p]) []

/-- Embeds `compile_jsonnet(source_file, ext_vars, jpathdir)`
(`src/doggonet/utils/jsonnet.py` lines 9-85) over the heap model: library
path resolution, the `_jsonnet` in-process branch, and the CLI fallback
with its `FileNotFoundError` / `CalledProcessError` / `JSONDecodeError`
handlers. Returns the Python result or exception together with the final
heap. -/
def compile_jsonnet (w : JsonnetWorld) (st : PyState) (source_file : String)
    (ext_vars : Option Nat) (jpathdir : Option Nat) :
    Except PyErr Value × PyState :=
  let a := resolve_jpath0 st jpathdir
  let b := add_library_path w a.2 a.1
  let jpRef := b.1
  let st1 := b.2
  match w.pyJsonnet with
  | some evaluateFile =>
      let c := resolve_extvars st1 ext_vars
      let evRef := c.1
      let st2 := c.2
      match evaluateFile source_file (readDict st2 evRef) (readList st2 jpRef) with
      | .ok jsonStr =>
          match w.jsonLoads jsonStr with
          | .ok v => (.ok v, st2)
          | .error e => (.error (.jsonDecodeError e), st2)
      | .error e => (.error (.evalError e), st2)
  | none =>
      let cmd := cli_command st1 source_file ext_vars jpRef
      match w.cliJsonnet with
      | none => (.error (.runtimeError notFoundMsg), st1)
      | some run =>
          match run cmd with
          | .ok stdout =>
              match w.jsonLoads stdout with
              | .ok v => (.ok v, st1)
              | .error e =>
                  (.error (.runtimeError ("Invalid JSON output from Jsonnet: " ++ e)), st1)
          | .error stderr =>
              (.error (.runtimeError ("Jsonnet compilation failed:\n" ++ stderr)), st1)

/-- Embeds `load_dashboard(file_path)` (`src/doggonet/utils/jsonnet.py`
lines 93-106): a Jsonnet-suffixed path goes to `compile_jsonnet` with
default arguments, every other path is opened and parsed as JSON (the read
and `json.load` of the file are one oracle). No validation of the result
happens in either branch. -/
def load_dashboard (w : JsonnetWorld) (st : PyState)
    (parseJsonFile : String → Except PyErr Value) (file_path : String) :
    Except PyErr Value :=
  if is_jsonnet_file file_path then (compile_jsonnet w st file_path none none).1
  else parseJsonFile file_path

/-- HTTP methods used by the reconciliation client. -/
inductive HttpMethod where
  | get
  | post
  | put
  | del

/-- An outgoing HTTP request of the reconciliation client: method, path
relative to the base URL, and optional JSON body. -/
structure HttpRequest where
  method : HttpMethod
  path : String
  body : Option PyDict

/-- Modelled from the spec: the server-managed dashboard fields that
section 4.4 says `createDashboard`/`updateDashboard` strip from the
outgoing payload (`client/dashboard.py` is not in the source tree; only
its tests and callers are). -/
def server_managed_fields : List String :=
  ["id", "created_at", "modified_at", "author_handle"]

/-- Modelled from the spec: removal of the server-managed fields from a
document, keeping every other key with its value and order. -/
def strip_server_fields (doc : PyDict) : PyDict :=
  doc.filter (fun kv => !(server_managed_fields.contains kv.1))

/-- Modelled from the spec: `createDashboard(document)` POSTs the stripped
document to the dashboard collection endpoint (`client/dashboard.py` is
missing from the tree). -/
def create_dashboard_request (doc : PyDict) : HttpRequest :=
  { method := HttpMethod.post, path := "/v1/dashboard", body := some (strip_server_fields doc) }

/-- Modelled from the spec: `updateDashboard(id, document)` PUTs the
stripped document to the single-dashboard endpoint (`client/dashboard.py`
is missing from the tree). -/
def update_dashboard_request (id : String) (doc : PyDict) : HttpRequest :=
  { method := HttpMethod.put, path := "/v1/dashboard/" ++ id
    body := some (strip_server_fields doc) }

/-- Body of a request, `[]` when it has none. -/
def requestBody (r : HttpRequest) : PyDict :=
  r.body.getD []

/-- Outcome of the GET that `dashboardExists` performs: a response with a
status code, or a raised `ApiError` / `NetworkError`. -/
inductive GetOutcome where
  | response (status : Nat)
  | apiError (status : Nat) (body : String)
  | networkError (msg : String)

/-- Modelled from the spec: `dashboardExists(id)` returns true iff the GET
response status is exactly 200 and downgrades any raised `ApiError` or
`NetworkError` to `false` (`client/dashboard.py` is missing from the tree;
the unit tests at `tests/unit/test_client.py` lines 109-155 exercise the
200, 404 and raised-exception cases). -/
def dashboard_exists (outcome : GetOutcome) : Bool :=
  match outcome with
  | .response s => s == 200
  | .apiError _ _ => false
  | .networkError _ => false

/-- Inputs to credentials resolution: the three explicit constructor
arguments and the three environment variables `DD_API_KEY`, `DD_APP_KEY`,
`DD_SITE`. -/
structure CredInput where
  argApiKey : Option String
  argAppKey : Option String
  argSite : Option String
  envApiKey : Option String
  envAppKey : Option String
  envSite : Option String

/-- Message of the missing-credentials error
(`tests/unit/test_client.py` line 25 matches it). -/
def missingCredsMsg : String :=
  "Missing required credentials: set DD_API_KEY and DD_APP_KEY"

/-- Modelled from the spec: site resolution — explicit argument, then
environment, then the default `datadoghq.com`. -/
def resolve_site (c : CredInput) : String :=
  match c.argSite with
  | some s => s
  | none =>
      match c.envSite with
      | some s => s
      | none => "datadoghq.com"

/-- Modelled from the spec: credentials resolution at client construction
(`client/dashboard.py` is missing from the tree). Each key resolves from
the explicit argument first, then the environment; a missing API key or
application key is a fatal error, raised by this pure resolution step
before any request object exists, hence before any network call. Returns
`(api_key, app_key, site)`. -/
def resolve_credentials (c : CredInput) : Except String (String × String × String) :=
  let api := match c.argApiKey with
    | some a => some a
    | none => c.envApiKey
  let app := match c.argAppKey with
    | some a => some a
    | none => c.envAppKey
  match api with
  | none => Except.error missingCredsMsg
  | some a =>
      match app with
      | none => Except.error missingCredsMsg
      | some p => Except.ok (a, p, resolve_site c)

/-- Lookup commutes with a key-based filter when the key is kept. -/
theorem pyGet_filter_keep (doc : PyDict) (q : String → Bool) (k : String)
    (hk : q k = true) :
    pyGet (doc.filter (fun kv => q kv.1)) k = pyGet doc k := by
  induction doc with
  | nil => rfl
  | cons kv rest ih =>
      obtain ⟨k1, v1⟩ := kv
      by_cases h : k1 = k
      · subst h
        simp [List.filter, hk, pyGet]
      · cases hq : q k1 <;> simp [List.filter, hq, pyGet, h, ih]

/-- Lookup of a filtered-out key yields nothing. -/
theorem pyGet_filter_drop (doc : PyDict) (q : String → Bool) (k : String)
    (hk : q k = false) :
    pyGet (doc.filter (fun kv => q kv.1)) k = none := by
  induction doc with
  | nil => rfl
  | cons kv rest ih =>
      obtain ⟨k1, v1⟩ := kv
      by_cases h : k1 = k
      · subst h
        simp [List.filter, hk, pyGet, ih]
      · cases hq : q k1 <;> simp [List.filter, hq, pyGet, h, ih]

/-- One heap extends another when both stores of the second are the stores
of the first followed by freshly allocated objects; every object the caller
already held is therefore untouched. -/
def stateExtends (st st2 : PyState) : Prop :=
  ∃ ls ds, st2.lists = st.lists ++ ls ∧ st2.dicts = st.dicts ++ ds

theorem stateExtends_refl (st : PyState) : stateExtends st st :=
  ⟨[], [], by simp, by simp⟩

theorem stateExtends_trans {s1 s2 s3 : PyState} (h12 : stateExtends s1 s2)
    (h23 : stateExtends s2 s3) : stateExtends s1 s3 := by
  obtain ⟨ls1, ds1, hl1, hd1⟩ := h12
  obtain ⟨ls2, ds2, hl2, hd2⟩ := h23
  exact ⟨ls1 ++ ls2, ds1 ++ ds2, by simp [hl2, hl1], by simp [hd2, hd1]⟩

theorem allocList_extends (st : PyState) (xs : List String) :
    stateExtends st (allocList st xs).2 :=
  ⟨[xs], [], rfl, by simp [allocList]⟩

theorem allocDict_extends (st : PyState) (kvs : List (String × String)) :
    stateExtends st (allocDict st kvs).2 :=
  ⟨[], [kvs], by simp [allocDict], rfl⟩

theorem resolve_jpath0_extends (st : PyState) (jp : Option Nat) :
    stateExtends st (resolve_jpath0 st jp).2 := by
  cases jp with
  | none => exact allocList_extends st []
  | some r =>
      by_cases h : (readList st r).isEmpty
      · simpa [resolve_jpath0, h] using allocList_extends st []
      · simp [resolve_jpath0, h, stateExtends_refl]

theorem add_library_path_extends (w : JsonnetWorld) (st : PyState) (jpRef : Nat) :
    stateExtends st (add_library_path w st jpRef).2 := by
  unfold add_library_path
  cases hp : w.doggonetParent with
  | none => exact stateExtends_refl st
  | some parent =>
      simp only
      by_cases h : (w.parentExists && !((readList st jpRef).contains parent)) = true
      · rw [if_pos h]
        exact allocList_extends st (parent :: readList st jpRef)
      · rw [if_neg h]
        exact stateExtends_refl st

theorem resolve_extvars_extends (st : PyState) (ev : Option Nat) :
    stateExtends st (resolve_extvars st ev).2 := by
  cases ev with
  | none => exact allocDict_extends st []
  | some r =>
      by_cases h : (readDict st r).isEmpty
      · simpa [resolve_extvars, h] using allocDict_extends st []
      · simp [resolve_extvars, h, stateExtends_refl]

theorem compile_jsonnet_extends (w : JsonnetWorld) (st : PyState) (src : String)
    (ev jp : Option Nat) :
    stateExtends st (compile_jsonnet w st src ev jp).2 := by
  have hB : stateExtends st
      (add_library_path w (resolve_jpath0 st jp).2 (resolve_jpath0 st jp).1).2 :=
    stateExtends_trans (resolve_jpath0_extends st jp)
      (add_library_path_extends w (resolve_jpath0 st jp).2 (resolve_jpath0 st jp).1)
  have hC : stateExtends st
      (resolve_extvars
        (add_library_path w (resolve_jpath0 st jp).2 (resolve_jpath0 st jp).1).2 ev).2 :=
    stateExtends_trans hB
      (resolve_extvars_extends
        (add_library_path w (resolve_jpath0 st jp).2 (resolve_jpath0 st jp).1).2 ev)
  unfold compile_jsonnet
  cases hw : w.pyJsonnet with
  | some evaluateFile =>
      simp only [hw]
      split
      · split
        · exact hC
        · exact hC
      · exact hC
  | none =>
      simp only [hw]
      cases hcli : w.cliJsonnet with
      | none => simp only [hcli]; exact hB
      | some run =>
          simp only [hcli]
          split
          · split
            · exact hB
            · exact hB
          · exact hB

/-- C4: the claim says the validator never raises and always returns a
report, for all values of every field, including a `widgets` field that is
not a sequence. The code is wrong: after recording the
`\x27widgets\x27 must be a list` error it still enumerates the `widgets`
value, so a non-iterable value there (here the int `0`) raises `TypeError`
instead of returning the report. -/
theorem validate_raises_on_int_widgets :
    validate_dashboard_json
      [("title", Value.vStr "t"), ("widgets", Value.vInt 0),
       ("layout_type", Value.vStr "ordered")]
      "dash.json"
      = Except.error "TypeError: \x27int\x27 object is not iterable" := rfl

/-- C5: on a document missing `title`, `widgets` and `layout_type`
simultaneously, the validator returns exactly three errors, one naming each
missing field, in source order, and nothing else. -/
theorem validate_missing_required_reports_three (d : PyDict) (f : String)
    (h1 : pyGet d "title" = none) (h2 : pyGet d "widgets" = none)
    (h3 : pyGet d "layout_type" = none) :
    validate_dashboard_json d f =
      Except.ok
        [f ++ ": Missing required field \x27title\x27",
         f ++ ": Missing required field \x27widgets\x27",
         f ++ ": Missing required field \x27layout_type\x27"] := by
  simp [validate_dashboard_json, h1, h2, h3]

theorem validate_missing_required_reports_three_witness :
    pyGet [("description", Value.vStr "x")] "title" = none
    ∧ pyGet [("description", Value.vStr "x")] "widgets" = none
    ∧ pyGet [("description", Value.vStr "x")] "layout_type" = none
    ∧ validate_dashboard_json [("description", Value.vStr "x")] "ex.json" =
        Except.ok
          ["ex.json" ++ ": Missing required field \x27title\x27",
           "ex.json" ++ ": Missing required field \x27widgets\x27",
           "ex.json" ++ ": Missing required field \x27layout_type\x27"] :=
  ⟨rfl, rfl, rfl,
   validate_missing_required_reports_three [("description", Value.vStr "x")] "ex.json"
     rfl rfl rfl⟩

/-- C2 counterexample: the claim says the push decision updates if and only
if the `id` field is present and the existence check succeeds. Against the
code this fails when `id` is present but falsy: for the document with
`id` equal to the empty string and an existence oracle that answers true,
the id field is present and the oracle answers true, yet the code creates,
because line 58 tests Python truthiness of `dashboard_id`, not presence. -/
theorem push_empty_id_creates :
    pyGet [("id", Value.vStr ""), ("title", Value.vStr "Prod")] "id"
        = some (Value.vStr "")
    ∧ (fun _ => true : Value → Bool) (Value.vStr "") = true
    ∧ push_decision [("id", Value.vStr ""), ("title", Value.vStr "Prod")] (fun _ => true)
        = PushAction.create [("id", Value.vStr ""), ("title", Value.vStr "Prod")] :=
  ⟨rfl, rfl, rfl⟩

/-- C2 amended: the push decision updates iff the document's `id` value is
present AND truthy (non-null, non-empty) AND the existence check answers
true; in every other case it creates; and the decision reads only the `id`
field, never the title, so adding a `title` key changes nothing. -/
theorem push_decision_truthy_iff (d : PyDict) (ex : Value → Bool) :
    (∀ v, push_decision d ex = PushAction.update v d ↔
        (pyGet d "id" = some v ∧ pyTruthy v = true ∧ ex v = true))
    ∧ (pyGet d "id" = none → push_decision d ex = PushAction.create d)
    ∧ (∀ t, actionIsUpdate (push_decision (("title", t) :: d) ex)
        = actionIsUpdate (push_decision d ex)) := by
  refine ⟨?_, ?_, ?_⟩
  · intro v
    cases h : pyGet d "id" with
    | none => simp [push_decision, h]
    | some w =>
        by_cases hc : (pyTruthy w && ex w) = true
        · rw [Bool.and_eq_true] at hc
          simp only [push_decision, h, hc.1, hc.2, Bool.and_self, if_true]
          constructor
          · intro hv
            cases hv
            exact ⟨rfl, hc.1, hc.2⟩
          · rintro ⟨hv, -, -⟩
            cases hv
            rfl
        · simp only [push_decision, h, if_neg hc]
          constructor
          · intro hv
            cases hv
          · rintro ⟨hv, h1, h2⟩
            cases hv
            rw [h1, h2] at hc
            exact (hc rfl).elim
  · intro h
    simp [push_decision, h]
  · intro t
    have hid : pyGet (("title", t) :: d) "id" = pyGet d "id" := by
      show (if ("title" : String) = "id" then some t else pyGet d "id") = pyGet d "id"
      rw [if_neg (by decide)]
    cases hg : pyGet d "id" with
    | none => simp [push_decision, hid, hg, actionIsUpdate]
    | some w =>
        cases hc : pyTruthy w && ex w <;>
          simp [push_decision, hid, hg, hc, actionIsUpdate]

theorem push_decision_truthy_iff_witness :
    pyGet ([] : PyDict) "id" = none
    ∧ push_decision ([] : PyDict) (fun _ => false) = PushAction.create [] :=
  ⟨rfl, (push_decision_truthy_iff [] (fun _ => false)).2.1 rfl⟩

/-- Suffix membership unfolded: a path is detected as Jsonnet exactly when
its extension is literally `.jsonnet` or `.libsonnet`. -/
theorem is_jsonnet_file_iff (p : String) :
    is_jsonnet_file p = true ↔
      (pathSuffix p = ".jsonnet" ∨ pathSuffix p = ".libsonnet") := by
  simp [is_jsonnet_file, List.contains]

/-- An empty heap, for concrete witnesses. -/
def emptyState : PyState := { lists := [], dicts := [] }

/-- A bare-bones environment with neither evaluator available, for
concrete witnesses. -/
def exampleWorld : JsonnetWorld :=
  { doggonetParent := none, parentExists := false, pyJsonnet := none
    cliJsonnet := none, jsonLoads := fun _ => Except.error "unused" }

/-- A concrete JSON-file parsing oracle, for witnesses. -/
def exampleParse : String → Except PyErr Value :=
  fun _ => Except.ok Value.vNull

/-- C6: `load_dashboard` dispatches purely on the file extension — a path
whose extension is `.jsonnet` or `.libsonnet` goes to `compile_jsonnet`
(with default external variables and include paths) and every other path
goes straight to the JSON parse of the file; in both branches the result is
returned unchanged, so no schema validation happens. -/
theorem load_dashboard_extension_dispatch (w : JsonnetWorld) (st : PyState)
    (parseJsonFile : String → Except PyErr Value) (p : String) :
    ((pathSuffix p = ".jsonnet" ∨ pathSuffix p = ".libsonnet") →
        load_dashboard w st parseJsonFile p = (compile_jsonnet w st p none none).1)
    ∧ (pathSuffix p ≠ ".jsonnet" → pathSuffix p ≠ ".libsonnet" →
        load_dashboard w st parseJsonFile p = parseJsonFile p) := by
  constructor
  · intro h
    simp [load_dashboard, (is_jsonnet_file_iff p).mpr h]
  · intro h1 h2
    have hfalse : is_jsonnet_file p = false := by
      cases hb : is_jsonnet_file p
      · rfl
      · rcases (is_jsonnet_file_iff p).mp hb with h | h
        · exact absurd h h1
        · exact absurd h h2
    simp [load_dashboard, hfalse]

theorem load_dashboard_extension_dispatch_witness :
    (pathSuffix "dash.jsonnet" = ".jsonnet" ∨ pathSuffix "dash.jsonnet" = ".libsonnet")
    ∧ load_dashboard exampleWorld emptyState exampleParse "dash.jsonnet"
        = (compile_jsonnet exampleWorld emptyState "dash.jsonnet" none none).1
    ∧ pathSuffix "dash.json" ≠ ".jsonnet"
    ∧ pathSuffix "dash.json" ≠ ".libsonnet"
    ∧ load_dashboard exampleWorld emptyState exampleParse "dash.json"
        = exampleParse "dash.json" :=
  ⟨Or.inl rfl,
   (load_dashboard_extension_dispatch exampleWorld emptyState exampleParse
      "dash.jsonnet").1 (Or.inl rfl),
   by decide, by decide,
   (load_dashboard_extension_dispatch exampleWorld emptyState exampleParse
      "dash.json").2 (by decide) (by decide)⟩

/-- C9: template detection is case-sensitive and exact — `is_jsonnet_file`
answers true only when the extension is literally `.jsonnet` or
`.libsonnet`, and a path with the upper-case extension `.JSONNET` is
treated as pre-compiled JSON by `load_dashboard`, going to the JSON parser
rather than the compiler. -/
theorem is_jsonnet_detection_case_sensitive :
    (∀ p, is_jsonnet_file p = true ↔
        (pathSuffix p = ".jsonnet" ∨ pathSuffix p = ".libsonnet"))
    ∧ pathSuffix "dash.JSONNET" = ".JSONNET"
    ∧ is_jsonnet_file "dash.JSONNET" = false
    ∧ (∀ w st parseJsonFile,
        load_dashboard w st parseJsonFile "dash.JSONNET" = parseJsonFile "dash.JSONNET") :=
  ⟨is_jsonnet_file_iff, rfl, rfl,
   fun w st parseJsonFile => by
     have h : is_jsonnet_file "dash.JSONNET" = false := rfl
     simp [load_dashboard, h]⟩

/-- C7: with the in-process evaluator unavailable and the external
executable absent, `compile_jsonnet` fails with precisely the
compiler-not-found `RuntimeError`, whose message tells the user both how to
get the pip package and where to get the CLI. -/
theorem compile_jsonnet_not_found (w : JsonnetWorld) (st : PyState)
    (source_file : String) (ext_vars jpathdir : Option Nat)
    (hpy : w.pyJsonnet = none) (hcli : w.cliJsonnet = none) :
    (compile_jsonnet w st source_file ext_vars jpathdir).1
        = Except.error (PyErr.runtimeError notFoundMsg)
    ∧ (∃ a b, notFoundMsg = a ++ "pip install jsonnet" ++ b)
    ∧ (∃ a b, notFoundMsg
        = a ++ "install the jsonnet CLI from: https://github.com/google/go-jsonnet" ++ b) := by
  refine ⟨?_,
    ⟨"Jsonnet compiler not found. Install with: ",
     "\nOr install the jsonnet CLI from: https://github.com/google/go-jsonnet", rfl⟩,
    ⟨"Jsonnet compiler not found. Install with: pip install jsonnet\nOr ", "", rfl⟩⟩
  simp [compile_jsonnet, hpy, hcli]

theorem compile_jsonnet_not_found_witness :
    exampleWorld.pyJsonnet = none ∧ exampleWorld.cliJsonnet = none
    ∧ (compile_jsonnet exampleWorld emptyState "dash.jsonnet" none none).1
        = Except.error (PyErr.runtimeError notFoundMsg) :=
  ⟨rfl, rfl,
   (compile_jsonnet_not_found exampleWorld emptyState "dash.jsonnet" none none rfl rfl).1⟩

/-- C10: `compile_jsonnet` never mutates its caller's arguments — whatever
the environment and outcome, every list and dict object the caller held in
the heap before the call reads the same afterwards; the implicit library
include path is added by allocating a new list, never by appending to the
caller's. -/
theorem compile_jsonnet_preserves_caller_objects (w : JsonnetWorld) (st : PyState)
    (source_file : String) (ext_vars jpathdir : Option Nat) (r rd : Nat)
    (hr : r < st.lists.length) (hrd : rd < st.dicts.length) :
    readList (compile_jsonnet w st source_file ext_vars jpathdir).2 r = readList st r
    ∧ readDict (compile_jsonnet w st source_file ext_vars jpathdir).2 rd = readDict st rd := by
  obtain ⟨ls, ds, hl, hd⟩ := compile_jsonnet_extends w st source_file ext_vars jpathdir
  constructor
  · rw [readList, readList, hl, List.getD_append _ _ _ _ hr]
  · rw [readDict, readDict, hd, List.getD_append _ _ _ _ hrd]

theorem compile_jsonnet_preserves_caller_objects_witness :
    0 < ({ lists := [["a/b"]], dicts := [[("env", "prod")]] } : PyState).lists.length
    ∧ 0 < ({ lists := [["a/b"]], dicts := [[("env", "prod")]] } : PyState).dicts.length
    ∧ readList (compile_jsonnet exampleWorld
          { lists := [["a/b"]], dicts := [[("env", "prod")]] }
          "dash.jsonnet" (some 0) (some 0)).2 0
        = readList { lists := [["a/b"]], dicts := [[("env", "prod")]] } 0
    ∧ readDict (compile_jsonnet exampleWorld
          { lists := [["a/b"]], dicts := [[("env", "prod")]] }
          "dash.jsonnet" (some 0) (some 0)).2 0
        = readDict { lists := [["a/b"]], dicts := [[("env", "prod")]] } 0 :=
  ⟨by decide, by decide,
   (compile_jsonnet_preserves_caller_objects exampleWorld
      { lists := [["a/b"]], dicts := [[("env", "prod")]] }
      "dash.jsonnet" (some 0) (some 0) 0 0 (by decide) (by decide)).1,
   (compile_jsonnet_preserves_caller_objects exampleWorld
      { lists := [["a/b"]], dicts := [[("env", "prod")]] }
      "dash.jsonnet" (some 0) (some 0) 0 0 (by decide) (by decide)).2⟩

/-- C1: `createDashboard` and `updateDashboard` strip exactly the
server-managed fields `id`, `created_at`, `modified_at` and
`author_handle` from the outgoing payload — POST for create, PUT to the
single-dashboard endpoint for update — while every other key of the
caller's document is transmitted with its value unchanged, for every input
document. -/
theorem create_update_strip_server_fields (doc : PyDict) (id k : String) :
    (k ∈ server_managed_fields →
        pyGet (requestBody (create_dashboard_request doc)) k = none
        ∧ pyGet (requestBody (update_dashboard_request id doc)) k = none)
    ∧ (k ∉ server_managed_fields →
        pyGet (requestBody (create_dashboard_request doc)) k = pyGet doc k
        ∧ pyGet (requestBody (update_dashboard_request id doc)) k = pyGet doc k)
    ∧ (create_dashboard_request doc).method = HttpMethod.post
    ∧ (create_dashboard_request doc).path = "/v1/dashboard"
    ∧ (update_dashboard_request id doc).method = HttpMethod.put
    ∧ (update_dashboard_request id doc).path = "/v1/dashboard/" ++ id := by
  refine ⟨?_, ?_, rfl, rfl, rfl, rfl⟩
  · intro h
    have hc : (!(server_managed_fields.contains k)) = false := by simp [h]
    have hdrop := pyGet_filter_drop doc (fun s => !(server_managed_fields.contains s)) k hc
    exact ⟨hdrop, hdrop⟩
  · intro h
    have hc : (!(server_managed_fields.contains k)) = true := by simp [h]
    have hkeep := pyGet_filter_keep doc (fun s => !(server_managed_fields.contains s)) k hc
    exact ⟨hkeep, hkeep⟩

/-- Concrete document of the unit test `test_create_dashboard`, for the
witness. -/
def exampleDoc : PyDict :=
  [("title", Value.vStr "New Dashboard"), ("widgets", Value.vList []),
   ("id", Value.vStr "should-be-removed"), ("created_at", Value.vStr "timestamp")]

theorem create_update_strip_server_fields_witness :
    ("id" ∈ server_managed_fields
      ∧ pyGet (requestBody (create_dashboard_request exampleDoc)) "id" = none)
    ∧ ("title" ∉ server_managed_fields
      ∧ pyGet (requestBody (create_dashboard_request exampleDoc)) "title"
          = pyGet exampleDoc "title") :=
  ⟨⟨by decide,
    ((create_update_strip_server_fields exampleDoc "dash-123" "id").1 (by decide)).1⟩,
   ⟨by decide,
    ((create_update_strip_server_fields exampleDoc "dash-123" "title").2.1 (by decide)).1⟩⟩

/-- C3: `dashboardExists` answers true exactly when the GET produced a
response with status exactly 200; a 404 response and any raised
`ApiError` or `NetworkError` all yield false, without raising, so a
genuine 404 and a transport failure are indistinguishable to the caller. -/
theorem dashboard_exists_fail_safe :
    (∀ o, dashboard_exists o = true ↔ o = GetOutcome.response 200)
    ∧ dashboard_exists (GetOutcome.response 404) = false
    ∧ (∀ s b, dashboard_exists (GetOutcome.apiError s b) = false)
    ∧ (∀ m, dashboard_exists (GetOutcome.networkError m) = false)
    ∧ dashboard_exists (GetOutcome.response 404)
        = dashboard_exists (GetOutcome.networkError "Connection error") := by
  refine ⟨?_, rfl, fun s b => rfl, fun m => rfl, rfl⟩
  intro o
  cases o with
  | response s => simp [dashboard_exists]
  | apiError s b => simp [dashboard_exists]
  | networkError m => simp [dashboard_exists]

/-- C8: construction fails with the missing-credentials error when neither
an explicit argument nor the environment supplies the API key, or neither
supplies the application key — the resolution step is pure, so the failure
happens before any network call; explicit arguments take precedence over
environment variables; and the site resolves independently, defaulting to
`datadoghq.com` when neither source supplies it. -/
theorem resolve_credentials_spec (c : CredInput) :
    ((c.argApiKey = none ∧ c.envApiKey = none)
        ∨ (c.argAppKey = none ∧ c.envAppKey = none) →
        resolve_credentials c = Except.error missingCredsMsg)
    ∧ (∀ a p, c.argApiKey = some a → c.argAppKey = some p →
        resolve_credentials c = Except.ok (a, p, resolve_site c))
    ∧ (c.argSite = none → c.envSite = none → resolve_site c = "datadoghq.com")
    ∧ (∀ s, c.argSite = some s → resolve_site c = s) := by
  refine ⟨?_, ?_, ?_, ?_⟩
  · rintro (⟨h1, h2⟩ | ⟨h1, h2⟩)
    · simp [resolve_credentials, h1, h2]
    · cases harg : c.argApiKey <;> cases henv : c.envApiKey <;>
        simp [resolve_credentials, harg, henv, h1, h2]
  · intro a p h1 h2
    simp [resolve_credentials, h1, h2]
  · intro h1 h2
    simp [resolve_site, h1, h2]
  · intro s h
    simp [resolve_site, h]

/-- Construction inputs with nothing supplied, for the witness. -/
def emptyCreds : CredInput :=
  { argApiKey := none, argAppKey := none, argSite := none
    envApiKey := none, envAppKey := none, envSite := none }

/-- Construction inputs of the unit test `test_client_with_custom_credentials`
(explicit arguments set, with an environment API key present to show
precedence), for the witness. -/
def customCreds : CredInput :=
  { argApiKey := some "custom_api", argAppKey := some "custom_app"
    argSite := some "datadoghq.eu"
    envApiKey := some "env_api", envAppKey := none, envSite := none }

theorem resolve_credentials_spec_witness :
    ((emptyCreds.argApiKey = none ∧ emptyCreds.envApiKey = none)
      ∧ resolve_credentials emptyCreds = Except.error missingCredsMsg)
    ∧ (customCreds.argApiKey = some "custom_api"
      ∧ customCreds.argAppKey = some "custom_app"
      ∧ resolve_credentials customCreds
          = Except.ok ("custom_api", "custom_app", resolve_site customCreds))
    ∧ (emptyCreds.argSite = none ∧ emptyCreds.envSite = none
      ∧ resolve_site emptyCreds = "datadoghq.com")
    ∧ (customCreds.argSite = some "datadoghq.eu"
      ∧ resolve_site customCreds = "datadoghq.eu") :=
  ⟨⟨⟨rfl, rfl⟩, (resolve_credentials_spec emptyCreds).1 (Or.inl ⟨rfl, rfl⟩)⟩,
   ⟨rfl, rfl,
    (resolve_credentials_spec customCreds).2.1 "custom_api" "custom_app" rfl rfl⟩,
   ⟨rfl, rfl, (resolve_credentials_spec emptyCreds).2.2.1 rfl rfl⟩,
   ⟨rfl, (resolve_credentials_spec customCreds).2.2.2 "datadoghq.eu" rfl⟩⟩

end Doggonet
